import Mathlib

/-!
Verification of the ProductPro single-page client (src/src/ProductPro.tsx).

The program is a single React component: it accepts an uploaded product
image, draws four filtered canvas variants, fills caption/ad templates,
offers an upscale and a ZIP export, and keeps a per-day operation counter
in localStorage.  This file gives a shallow embedding of that code:

* JavaScript numbers are modelled as `ℚ` (all arithmetic the claims touch
  is exact: the decimal literals 1.3, 1.6, 0.08, … are modelled as the
  exact rationals they denote; on every product the code computes, the
  binary-float result rounds to the same integer as the exact rational).
* `Math.round` is `jsRound` (floor of x + 1/2, which is exactly
  JavaScript's round-half-up behaviour).
* Canvas drawing is modelled as the list of draw calls issued
  (`DrawOp`); `ctx.measureText` is an oracle parameter `measureW`
  (font, text ↦ measured width) since text metrics are
  environment-dependent.
* The React component state together with localStorage is `AppState`;
  every event handler becomes a state transformer, with the
  environment-dependent outcome of asynchronous image decoding / ZIP
  packaging passed as an explicit outcome parameter.
-/

namespace ProductPro

/-! ### Data model (section "Types" of the source) -/

/-- The `mode` field of `GenOptions`: `"photo" | "poster"`. -/
inductive Mode
  | photo
  | poster
deriving DecidableEq, Repr

/-- The `ratio` field of `GenOptions`: `"1:1" | "4:5" | "16:9" | "9:16"`. -/
inductive Aspect
  | r1x1
  | r4x5
  | r16x9
  | r9x16
deriving DecidableEq, Repr

/-- The `quality` field of `GenOptions`: `"standard" | "high" | "ultra"`. -/
inductive Quality
  | standard
  | high
  | ultra
deriving DecidableEq, Repr

/-- interface GenOptions of the source. -/
structure GenOptions where
  mode : Mode
  style : String
  customPrompt : String
  ratio : Aspect
  quality : Quality
  watermark : Bool
deriving DecidableEq, Repr

/-- The string rendering of a `Mode` value (the union is a string union in TS). -/
def modeStr : Mode → String
  | .photo => "photo"
  | .poster => "poster"

/-- The string rendering of an `Aspect` value. -/
def aspectStr : Aspect → String
  | .r1x1 => "1:1"
  | .r4x5 => "4:5"
  | .r16x9 => "16:9"
  | .r9x16 => "9:16"

/-- The string rendering of a `Quality` value. -/
def qualityStr : Quality → String
  | .standard => "standard"
  | .high => "high"
  | .ultra => "ultra"

/-! ### Numeric helpers -/

/-- JavaScript `Math.round`: round half up, i.e. `⌊x + 1/2⌋`
(written with the executable `Rat.floor`). -/
def jsRound (x : ℚ) : ℤ := Rat.floor (x + 1/2)

/-- An image with its natural pixel dimensions (an `HTMLImageElement`
as far as the drawing code reads it: only `width` and `height`). -/
structure Img where
  width : ℕ
  height : ℕ
deriving DecidableEq, Repr

/-- Helper `contain(iw, ih, maxW, maxH)` of the source:
`r = Math.min(maxW / iw, maxH / ih)`, result
`{ w: Math.round(iw * r), h: Math.round(ih * r) }`. -/
structure Fit where
  w : ℤ
  h : ℤ
deriving DecidableEq, Repr

/-- Source helper `contain`. -/
def contain (iw ih maxW maxH : ℚ) : Fit :=
  let r := min (maxW / iw) (maxH / ih)
  { w := jsRound (iw * r), h := jsRound (ih * r) }

/-! ### String helpers of the source -/

/-- Value of a hexadecimal digit character (the digit semantics of
JavaScript `parseInt(-, 16)` on the well-formed inputs the code uses). -/
def hexDigitVal (c : Char) : ℕ :=
  if c.isDigit then c.toNat - '0'.toNat
  else if 'a' ≤ c ∧ c ≤ 'f' then c.toNat - 'a'.toNat + 10
  else if 'A' ≤ c ∧ c ≤ 'F' then c.toNat - 'A'.toNat + 10
  else 0

/-- JavaScript `parseInt(s, 16)` on strings of hex digits. -/
def parseInt16 (s : String) : ℕ :=
  s.data.foldl (fun acc c => acc * 16 + hexDigitVal c) 0

/-- JavaScript `s.substring(a, b)`: the characters at positions `[a, b)`. -/
def jsSubstring (s : String) (a b : ℕ) : String :=
  ⟨(s.data.drop a).take (b - a)⟩

/-- Replace the first occurrence of `pat` in `s` (JavaScript
`String.prototype.replace` with a string pattern replaces only the
first occurrence). -/
def listReplaceFirst (pat repl : List Char) : List Char → List Char
  | [] => []
  | c :: rest =>
    if pat.isPrefixOf (c :: rest) then repl ++ (c :: rest).drop pat.length
    else c :: listReplaceFirst pat repl rest

/-- JavaScript `s.replace(pat, repl)` (string pattern: first occurrence). -/
def jsReplace (s pat repl : String) : String :=
  ⟨listReplaceFirst pat.data repl.data s.data⟩

/-- Source helper `hexWithAlpha(hex, a)`.  The alpha argument is a number
in the source; the model takes its JavaScript decimal rendering as a
string (the code only ever passes the literals 0.06, 0.12 and 0.7, which
render as "0.06", "0.12" and "0.7"). -/
def hexWithAlpha (hex : String) (a : String) : String :=
  let x := jsReplace hex "#" ""
  let r := parseInt16 (jsSubstring x 0 2)
  let g := parseInt16 (jsSubstring x 2 4)
  let b := parseInt16 (jsSubstring x 4 6)
  "rgba(" ++ toString r ++ "," ++ toString g ++ "," ++ toString b ++ "," ++ a ++ ")"

/-- Source helper `truncate(s, n)`.  (JavaScript counts UTF-16 units;
the model counts characters — identical on the ASCII/Latin strings the
code passes.) -/
def truncate (s : String) (n : ℕ) : String :=
  if n < s.length then (s.take (n - 1)) ++ "…" else s

/-! ### Preset filters -/

/-- An element of the list built by `buildPresetFilters`. -/
structure Preset where
  name : String
  filter : String
deriving DecidableEq, Repr, Inhabited

/-- Source `buildPresetFilters(opts)`: four presets built from the base
filter string, reversed when the mode is poster. -/
def buildPresetFilters (opts : GenOptions) : List Preset :=
  let base := "contrast(1.05) saturate(1.05)"
  let list : List Preset :=
    [ { name := "clean", filter := base ++ " brightness(1.03)" },
      { name := "moody", filter := base ++ " brightness(0.92) contrast(1.15)" },
      { name := "pop", filter := base ++ " brightness(1.1) saturate(1.25)" },
      { name := "matte", filter := base ++ " brightness(1.0) contrast(0.95)" } ]
  if opts.mode = .poster then list.reverse else list

/-! ### Canvas drawing model -/

/-- One 2D-context draw call.  `fillRect` and `fillText` record the
current `fillStyle`; `drawImage` records the current `ctx.filter`.
(The transient `globalAlpha` settings of the poster text block are
presentation detail the claims do not touch and are not recorded.) -/
inductive DrawOp
  | fillRect (x y w h : ℚ) (style : String)
  | drawImage (x y w h : ℚ) (filter : String)
  | fillText (text : String) (x y : ℚ) (font : String) (style : String)
deriving DecidableEq, Repr

/-- A canvas: its `width`/`height` attributes and the draw calls issued
on its context, in order. -/
structure Canvas where
  width : ℤ
  height : ℤ
  ops : List DrawOp
deriving DecidableEq, Repr, Inhabited

/-- The x positions visited by the poster grid loop
`for (let gx = pad; gx < stop; gx += step)`.  The loop only runs with a
positive step (step = Math.round((cw - pad*2)/6) ≥ 143 at every size the
code produces); a non-positive step would not terminate in JavaScript
and yields `[]` here. -/
def gridCols (gx stop step : ℤ) : List ℤ :=
  if _h : 0 < step ∧ gx < stop then gx :: gridCols (gx + step) stop step else []
termination_by (stop - gx).toNat
decreasing_by
  omega

/-- The pixel-pair table `ratios` of `generateVariants`. -/
def ratios : Aspect → ℕ × ℕ
  | .r1x1 => (1024, 1024)
  | .r4x5 => (1024, 1280)
  | .r16x9 => (1280, 720)
  | .r9x16 => (1080, 1920)

/-- The quality multiplier of `generateVariants`:
`opts.quality === "ultra" ? 1.6 : opts.quality === "high" ? 1.3 : 1`. -/
def qualityScale (opts : GenOptions) : ℚ :=
  if opts.quality = .ultra then 1.6 else if opts.quality = .high then 1.3 else 1

/-- One iteration of the drawing loop of `generateVariants`: the canvas
produced for loop index `i`. -/
def variantCanvas (measureW : String → String → ℚ) (base : Img)
    (opts : GenOptions) (i : ℕ) : Canvas :=
  let wh := ratios opts.ratio
  let presets := buildPresetFilters opts
  let cw : ℤ := jsRound ((wh.1 : ℚ) * qualityScale opts)
  let ch : ℤ := jsRound ((wh.2 : ℚ) * qualityScale opts)
  let pad : ℤ := jsRound (((min cw ch : ℤ) : ℚ) * 0.08)
  let iw : ℤ := cw - pad * 2
  let ih : ℤ := ch - pad * 2
  let fit := contain (base.width : ℚ) (base.height : ℚ) (iw : ℚ) (ih : ℚ)
  let ix : ℚ := ((cw : ℚ) - (fit.w : ℚ)) / 2
  let iy : ℚ := ((ch : ℚ) - (fit.h : ℚ)) / 2
  let p := presets.getD (i % presets.length) default
  let baseOps : List DrawOp :=
    [ .fillRect 0 0 (cw : ℚ) (ch : ℚ) (if opts.mode = .poster then "#0a0a0a" else "#111"),
      .drawImage ix iy ((fit.w : ℤ) : ℚ) ((fit.h : ℤ) : ℚ) p.filter ]
  let posterOps : List DrawOp :=
    if opts.mode = .poster then
      let step : ℤ := jsRound (((cw : ℚ) - (pad : ℚ) * 2) / 6)
      ((gridCols pad (cw - pad) step).map fun gx =>
        .fillRect (gx : ℚ) (pad : ℚ) 1 ((ch : ℚ) - (pad : ℚ) * 2) (hexWithAlpha "#ffffff" "0.06"))
      ++ [ .fillText "PRODUCTPRO" (pad : ℚ) ((ch : ℚ) - (pad : ℚ) * 1.2)
             (toString (jsRound ((cw : ℚ) * 0.06)) ++ "px sans-serif") "#fff",
           .fillText (truncate opts.style 42) (pad : ℚ) ((ch : ℚ) - (pad : ℚ) * 0.6)
             (toString (jsRound ((cw : ℚ) * 0.03)) ++ "px sans-serif") "#fff",
           .fillRect (pad : ℚ) (pad : ℚ) ((jsRound ((cw : ℚ) * 0.28) : ℤ) : ℚ)
             ((jsRound ((ch : ℚ) * 0.02) : ℤ) : ℚ) (hexWithAlpha "#ffffff" "0.12") ]
    else []
  let wmOps : List DrawOp :=
    if opts.watermark then
      let font := toString (jsRound ((cw : ℚ) * 0.018)) ++ "px sans-serif"
      let tw := measureW font "ProductPro"
      [ .fillText "ProductPro" ((cw : ℚ) - tw - (pad : ℚ)) ((ch : ℚ) - (pad : ℚ))
          font (hexWithAlpha "#ffffff" "0.7") ]
    else []
  { width := cw, height := ch, ops := baseOps ++ posterOps ++ wmOps }

/-- Source `generateVariants(src, opts)`: four canvases drawn with the
preset filters.  `measureW` is the `ctx.measureText` oracle
(font, text ↦ width); `base` is the image decoded from `src` by
`loadImage` (decode failure is handled at the caller, `runGenerate`). -/
def generateVariants (measureW : String → String → ℚ) (base : Img)
    (opts : GenOptions) : List Canvas :=
  (List.range 4).map (variantCanvas measureW base opts)

/-- Source `upscale2x(dataUrl)`: decode the image (its natural size is
the size of the canvas it was rendered from) and draw it onto a canvas
of exactly twice the width and height. -/
def upscale2x (img : Canvas) : Canvas :=
  { width := img.width * 2,
    height := img.height * 2,
    ops := [ .drawImage 0 0 ((img.width * 2 : ℤ) : ℚ) ((img.height * 2 : ℤ) : ℚ) "none" ] }

/-! ### Caption / ad copy templates -/

/-- One caption/ad pair produced by `buildCopies`. -/
structure Copy where
  caption : String
  ad : String
deriving DecidableEq, Repr

/-- Source `buildCopies(opts)`: the four fixed templates with the option
fields substituted in. -/
def buildCopies (opts : GenOptions) : List Copy :=
  [ { caption := "Upgrade tampilan produkmu. "
        ++ (if opts.mode = .photo then "Foto studio bersih" else "Poster modern")
        ++ " dengan gaya: " ++ opts.style ++ ". #ProductPro",
      ad := "Kenalkan produk Anda dengan visual " ++ modeStr opts.mode
        ++ ". Gaya: " ++ opts.style ++ ". Coba gratis hari ini." },
    { caption := "Visual yang bikin berhenti scroll. "
        ++ (if opts.mode = .photo then "Foto" else "Poster")
        ++ " bergaya " ++ opts.style ++ ".",
      ad := "Tingkatkan CTR dengan aset " ++ modeStr opts.mode
        ++ " berkualitas " ++ qualityStr opts.quality ++ ". Mulai sekarang!" },
    { caption := "Dari foto biasa jadi materi siap upload. Aspect "
        ++ aspectStr opts.ratio ++ ".",
      ad := "Generate 4 variasi otomatis + watermark opsional. Cocok untuk UMKM." },
    { caption := "Tampil konsisten di feed. "
        ++ (if opts.mode = .photo then "Lighting terkontrol" else "Grid tipografi rapi")
        ++ ".",
      ad := "Sesuaikan style & export ZIP. Scale kontenmu tanpa ribet." } ]

/-! ### Rate limit: day key and localStorage counter -/

/-- A calendar date as the code reads it off `new Date()`:
`year` is `getFullYear()`, `month` is `getMonth()` (0-based),
`day` is `getDate()` (1-based day of month). -/
structure Date where
  year : ℕ
  month : ℕ
  day : ℕ
deriving DecidableEq, Repr

/-- JavaScript `s.padStart(2, "0")`. -/
def padStart2 (s : String) : String :=
  if 2 ≤ s.length then s else ⟨List.replicate (2 - s.length) '0'⟩ ++ s

/-- Source `keyForToday()`: the localStorage key for date `d`. -/
def keyForToday (d : Date) : String :=
  let y := toString d.year
  let m := padStart2 (toString (d.month + 1))
  let day := padStart2 (toString d.day)
  "pp_ops_" ++ y ++ "-" ++ m ++ "-" ++ day

/-- The browser localStorage: `getItem` returns `none` for an absent key. -/
def Store := String → Option String

/-- `localStorage.setItem`. -/
def setItem (store : Store) (k v : String) : Store :=
  fun k2 => if k2 = k then some v else store k2

/-- JavaScript `s.startsWith(pat)`. -/
def jsStartsWith (s pat : String) : Bool := pat.data.isPrefixOf s.data

/-- The value of a nonempty string of decimal digits; `none` if the
string is empty or holds a non-digit. -/
def natDigits? (cs : List Char) : Option ℕ :=
  match cs with
  | [] => none
  | _ =>
    cs.foldl (fun acc c =>
      acc.bind fun n => if c.isDigit then some (10 * n + (c.toNat - '0'.toNat)) else none)
      (some 0)

/-- JavaScript `Number(s)` as the code exercises it: the stored strings
are always `String(v)` renderings of integers, which parse exactly; any
other string (`NaN` in JavaScript) is collapsed to 0. -/
def jsNumber (s : String) : ℤ :=
  match s.data with
  | '-' :: rest => -(((natDigits? rest).getD 0 : ℕ) : ℤ)
  | cs => (((natDigits? cs).getD 0 : ℕ) : ℤ)

/-- Source `getOpsUsed()`: `Number(localStorage.getItem(key) || "0")`
(`null` and the empty string are falsy, so both read as "0"). -/
def getOpsUsed (store : Store) (d : Date) : ℤ :=
  let raw := (store (keyForToday d)).getD ""
  jsNumber (if raw = "" then "0" else raw)

/-- Source `incOpsUsed(n)`: reads the counter from the store, adds `n`,
writes it back, and returns the value also stored into React state via
`setOpsUsed`. -/
def incOpsUsed (store : Store) (d : Date) (n : ℤ) : Store × ℤ :=
  let v := getOpsUsed store d + n
  (setItem store (keyForToday d) (toString v), v)

/-! ### Component state and event handlers -/

/-- The React state of the `ProductPro` component plus the localStorage
it reads and writes.  `today` is the session's date (the model keeps it
fixed within a session).  `opsUsed` mirrors the store, as in the source
(`useState(() => getOpsUsed())`, updated by `incOpsUsed`). -/
structure AppState where
  img : Option Img
  busy : Bool
  error : Option String
  options : GenOptions
  variants : List Canvas
  copies : List Copy
  opsUsed : ℤ
  store : Store
  today : Date

/-- `const remaining = 30 - opsUsed`. -/
def remaining (s : AppState) : ℤ := 30 - s.opsUsed

/-- An uploaded `File` as the handler reads it: its MIME `type` and the
image its bytes decode to. -/
structure JsFile where
  type : String
  content : Img
deriving DecidableEq, Repr

/-- The environment outcome of the awaited `fileToDataUrl(file)` call
inside `onUpload`: the `FileReader` either resolves with the data URL
or rejects (`fr.onerror`, `new Error("Gagal membaca file.")`). -/
inductive ReadOutcome
  | ok
  | readFail
deriving DecidableEq, Repr

/-- Source handler `onUpload(file)`: clear the error, reject non-image
MIME types with a user message, otherwise await the file read and set
the uploaded image.  `onUpload` neither catches nor awaits-with-catch
the read rejection, so on `readFail` the rejection escapes the async
handler: no further state write happens — the image stays unchanged and
no message is set (the error was already cleared at entry). -/
def onUpload (s : AppState) (f : JsFile) (out : ReadOutcome) : AppState :=
  let s1 := { s with error := none }
  if ¬ (jsStartsWith f.type "image/") then
    { s1 with error := some "Unggah file gambar (PNG/JPG)" }
  else
    match out with
    | .readFail => s1
    | .ok => { s1 with img := some f.content }

/-- The environment outcome of the awaited `generateVariants` call
inside `runGenerate`: `loadImage` either decodes the uploaded data URL
or rejects. -/
inductive GenOutcome
  | ok
  | decodeFail
deriving DecidableEq, Repr

/-- Source handler `runGenerate()`.  `setBusy(true)` / `setError(null)`
first; the guard clauses throw user messages; on the success path the
variants and copies are set and the counter incremented; the `catch`
stores the message, the `finally` clears `busy`. -/
def runGenerate (measureW : String → String → ℚ) (s : AppState)
    (out : GenOutcome) : AppState :=
  let s1 := { s with busy := true, error := none }
  match s.img with
  | none => { s1 with error := some "Harap unggah foto produk dulu.", busy := false }
  | some base =>
    if remaining s ≤ 0 then
      { s1 with error := some "Batas 30 operasi/hari tercapai.", busy := false }
    else
      match out with
      | .decodeFail => { s1 with error := some "Gagal memuat gambar.", busy := false }
      | .ok =>
        let vs := generateVariants measureW base s.options
        let cs := buildCopies s.options
        let inc := incOpsUsed s.store s.today 1
        { s1 with variants := vs, copies := cs, store := inc.1, opsUsed := inc.2,
                  busy := false }

/-- The environment outcome of the awaited `Promise.all(variants.map(upscale2x))`:
each `loadImage` decodes, or one rejects. -/
inductive UpOutcome
  | ok
  | decodeFail
deriving DecidableEq, Repr

/-- Source handler `doUpscale()`: on success every variant is replaced by
its 2x upscale; a decode rejection lands in the `catch`, which only sets
the error (note: `doUpscale` does not clear a previous error on entry). -/
def doUpscale (s : AppState) (out : UpOutcome) : AppState :=
  match out with
  | .ok => { s with variants := s.variants.map upscale2x, busy := false }
  | .decodeFail => { s with error := some "Gagal memuat gambar.", busy := false }

/-- The environment outcome of `exportAll()`: the ZIP packaging either
succeeds, or fails and the inner `catch` falls back to individual PNG
downloads, or something outside the inner `try` throws with a message. -/
inductive ExportOutcome
  | zipOk
  | zipFallback
  | fail (msg : String)
deriving DecidableEq, Repr

/-- Source handler `exportAll()`.  Downloads are side effects outside the
component state; only the error and busy flags can change. -/
def exportAll (s : AppState) (out : ExportOutcome) : AppState :=
  match out with
  | .fail msg => { s with error := some msg, busy := false }
  | _ => { s with busy := false }

/-- Source handler `clearAll()`. -/
def clearAll (s : AppState) : AppState :=
  { s with variants := [], copies := [] }

/-! ### The session as a transition system -/

/-- One user/environment event of the component: the handlers above plus
the direct `setState` calls wired to the UI (`setImg(null)` on the
"Hapus" button and the options editors). -/
inductive Step (measureW : String → String → ℚ) : AppState → AppState → Prop
  | upload (s : AppState) (f : JsFile) (out : ReadOutcome) :
      Step measureW s (onUpload s f out)
  | removeImg (s : AppState) : Step measureW s { s with img := none }
  | setOptions (s : AppState) (o : GenOptions) : Step measureW s { s with options := o }
  | generate (s : AppState) (out : GenOutcome) : Step measureW s (runGenerate measureW s out)
  | upscale (s : AppState) (out : UpOutcome) : Step measureW s (doUpscale s out)
  | doExport (s : AppState) (out : ExportOutcome) : Step measureW s (exportAll s out)
  | clear (s : AppState) : Step measureW s (clearAll s)

/-- The freshly mounted component on a day whose counter has never been
written: no image, no output, counter 0 (`useState(() => getOpsUsed())`
on an absent key). -/
def initState (opts : GenOptions) (d : Date) : AppState :=
  { img := none, busy := false, error := none, options := opts,
    variants := [], copies := [], opsUsed := 0,
    store := fun _ => none, today := d }

/-- States reachable from `s` by any sequence of events. -/
def Reachable (measureW : String → String → ℚ) : AppState → AppState → Prop :=
  Relation.ReflTransGen (Step measureW)

/-! ### Derived observations used by the claims -/

/-- The filter strings of the `drawImage` calls of a canvas, in order. -/
def canvasFilters (c : Canvas) : List String :=
  c.ops.filterMap fun op =>
    match op with
    | .drawImage _ _ _ _ f => some f
    | _ => none

/-- Recognizes the watermark overlay draw call: the text "ProductPro"
drawn with the watermark fill style `rgba(255,255,255,0.7)`.  (The fill
style distinguishes it from the poster caption, which is drawn with
fill style "#fff" and could also read "ProductPro" for a user-chosen
style string.) -/
def isWatermarkOp (op : DrawOp) : Bool :=
  match op with
  | .fillText t _ _ _ st => st == "rgba(255,255,255,0.7)" && t == "ProductPro"
  | _ => false

/-- The watermark draw calls of a canvas. -/
def watermarkOps (c : Canvas) : List DrawOp := c.ops.filter isWatermarkOp

/-- The parts of the state the error-handling design says a failing
action must leave intact: the uploaded image, the variants, the copies,
and the usage counter (both the React mirror and the backing store). -/
def persisted (s : AppState) : Option Img × List Canvas × List Copy × ℤ × Store :=
  (s.img, s.variants, s.copies, s.opsUsed, s.store)

/-- A failing invocation of `runGenerate`: one of its three failure
points fires (no upload, exhausted quota, image decode rejection). -/
def GenFails (s : AppState) (out : GenOutcome) : Prop :=
  s.img = none ∨ remaining s ≤ 0 ∨ out = .decodeFail

/-- The day-counter invariant: the React mirror is a faithful copy of
the stored counter and sits in [0, 30]. -/
def CounterInv (s : AppState) : Prop :=
  0 ≤ s.opsUsed ∧ s.opsUsed ≤ 30 ∧ getOpsUsed s.store s.today = s.opsUsed

/-- Whether a string is exactly two decimal digits. -/
def digitString2 (s : String) : Bool :=
  match s.data with
  | [a, b] => a.isDigit && b.isDigit
  | _ => false

/-- Whether a string has the form `pp_ops_YYYY-MM-DD` claimed for the
counter key: the literal prefix "pp_ops_", a four-digit year, a dash, a
two-digit month, a dash, and a two-digit day. -/
def keyFormatOK (s : String) : Bool :=
  match s.data with
  | p1 :: p2 :: p3 :: p4 :: p5 :: p6 :: p7 ::
    y1 :: y2 :: y3 :: y4 :: h1 :: m1 :: m2 :: h2 :: d1 :: d2 :: [] =>
    (p1 == 'p') && (p2 == 'p') && (p3 == '_') && (p4 == 'o') && (p5 == 'p') &&
    (p6 == 's') && (p7 == '_') &&
    y1.isDigit && y2.isDigit && y3.isDigit && y4.isDigit &&
    (h1 == '-') && m1.isDigit && m2.isDigit &&
    (h2 == '-') && d1.isDigit && d2.isDigit
  | _ => false

/-! ### Concrete example inputs (used by witnesses) -/

/-- A concrete `measureText` oracle. -/
def measureEx : String → String → ℚ := fun _ _ => 0

/-- The component's initial options (the `useState` initializer). -/
def optsEx : GenOptions :=
  { mode := .photo, style := "Studio softbox, glossy table, minimal shadows",
    customPrompt := "", ratio := .r1x1, quality := .standard, watermark := true }

/-- A concrete decoded product photo. -/
def imgEx : Img := ⟨400, 300⟩

/-- A concrete session date (October 11, 2026; `getMonth()` is 0-based). -/
def dateEx : Date := ⟨2026, 9, 11⟩

/-- A session state with no upload and an exhausted counter. -/
def stateEx30 : AppState :=
  { img := none, busy := false, error := none, options := optsEx,
    variants := [], copies := [], opsUsed := 30,
    store := fun _ => none, today := dateEx }

/-- A session state with an upload and an exhausted counter. -/
def stateExImg : AppState := { stateEx30 with img := some imgEx }

/-- A concrete image upload. -/
def fileEx : JsFile := ⟨"image/png", imgEx⟩

/-- The first canvas of `generateVariants measureEx imgEx optsEx`. -/
def cEx : Canvas :=
  (generateVariants measureEx imgEx optsEx).get
    ⟨0, by simp [generateVariants]⟩

/-! ## Supporting lemmas -/

lemma jsRound_eq_floor (x : ℚ) : jsRound x = ⌊x + 1/2⌋ := by
  rw [jsRound, Rat.floor_def', ← Rat.floor_def]

lemma cEx_mem : cEx ∈ generateVariants measureEx imgEx optsEx :=
  List.get_mem _ 0 (by simp [generateVariants])

lemma filterMap_const_none {α β : Type} (l : List α) :
    l.filterMap (fun _ => (none : Option β)) = [] := by
  induction l with
  | nil => rfl
  | cons a l ih => simp [List.filterMap_cons, ih]

lemma filter_const_false {α : Type} (l : List α) :
    l.filter (fun _ => false) = [] := by
  induction l with
  | nil => rfl
  | cons a l ih => simp [List.filter_cons, ih]

lemma hexw07 : hexWithAlpha "#ffffff" "0.7" = "rgba(255,255,255,0.7)" := by decide

lemma beq_fff : (("#fff" == "rgba(255,255,255,0.7)") = false) := by decide

lemma canvasFilters_variantCanvas (measureW : String → String → ℚ) (base : Img)
    (opts : GenOptions) (i : ℕ) :
    canvasFilters (variantCanvas measureW base opts i) =
      [((buildPresetFilters opts).getD (i % (buildPresetFilters opts).length) default).filter] := by
  unfold canvasFilters variantCanvas
  cases hm : opts.mode <;> cases hw : opts.watermark <;>
    simp [hm, hw, List.filterMap_append, List.filterMap_cons, List.filterMap_map,
          Function.comp, filterMap_const_none]

/-! ## The claims -/

/-- C10: for all positive integers `iw, ih, maxW, maxH`, the scaled
image computed by `contain` fits the box: `w ≤ maxW` and `h ≤ maxH`,
where `contain` applies the scale factor `min(maxW/iw, maxH/ih)` to
both dimensions (the rounding never pushes a dimension past the box). -/
theorem c10_contain_bounds (iw ih maxW maxH : ℕ) (h1 : 0 < iw) (h2 : 0 < ih)
    (_h3 : 0 < maxW) (_h4 : 0 < maxH) :
    (contain (iw : ℚ) (ih : ℚ) (maxW : ℚ) (maxH : ℚ)).w ≤ (maxW : ℤ) ∧
    (contain (iw : ℚ) (ih : ℚ) (maxW : ℚ) (maxH : ℚ)).h ≤ (maxH : ℤ) := by
  have hiw : (0:ℚ) < iw := by exact_mod_cast h1
  have hih : (0:ℚ) < ih := by exact_mod_cast h2
  have hw : (iw:ℚ) * min ((maxW:ℚ)/iw) ((maxH:ℚ)/ih) ≤ maxW := by
    calc (iw:ℚ) * min ((maxW:ℚ)/iw) ((maxH:ℚ)/ih)
        ≤ (iw:ℚ) * ((maxW:ℚ)/iw) := by
          exact mul_le_mul_of_nonneg_left (min_le_left _ _) hiw.le
      _ = maxW := by field_simp
  have hh : (ih:ℚ) * min ((maxW:ℚ)/iw) ((maxH:ℚ)/ih) ≤ maxH := by
    calc (ih:ℚ) * min ((maxW:ℚ)/iw) ((maxH:ℚ)/ih)
        ≤ (ih:ℚ) * ((maxH:ℚ)/ih) := by
          exact mul_le_mul_of_nonneg_left (min_le_right _ _) hih.le
      _ = maxH := by field_simp
  refine ⟨?_, ?_⟩
  · have hpr : (contain (iw : ℚ) (ih : ℚ) (maxW : ℚ) (maxH : ℚ)).w =
        jsRound ((iw:ℚ) * min ((maxW:ℚ)/iw) ((maxH:ℚ)/ih)) := rfl
    rw [hpr, jsRound_eq_floor, ← Int.lt_add_one_iff, Int.floor_lt]
    push_cast
    linarith
  · have hpr : (contain (iw : ℚ) (ih : ℚ) (maxW : ℚ) (maxH : ℚ)).h =
        jsRound ((ih:ℚ) * min ((maxW:ℚ)/iw) ((maxH:ℚ)/ih)) := rfl
    rw [hpr, jsRound_eq_floor, ← Int.lt_add_one_iff, Int.floor_lt]
    push_cast
    linarith

/-- Witness for C10 at the concrete input (400, 300, 860, 860). -/
theorem c10_witness :
    0 < (400:ℕ) ∧ 0 < (300:ℕ) ∧ 0 < (860:ℕ) ∧ 0 < (860:ℕ) ∧
    ((contain ((400:ℕ) : ℚ) ((300:ℕ) : ℚ) ((860:ℕ) : ℚ) ((860:ℕ) : ℚ)).w ≤ ((860:ℕ) : ℤ) ∧
     (contain ((400:ℕ) : ℚ) ((300:ℕ) : ℚ) ((860:ℕ) : ℚ) ((860:ℕ) : ℚ)).h ≤ ((860:ℕ) : ℤ)) :=
  ⟨by norm_num, by norm_num, by norm_num, by norm_num,
   c10_contain_bounds 400 300 860 860 (by norm_num) (by norm_num) (by norm_num) (by norm_num)⟩

/-- C5: `upscale2x` returns an image of exactly twice the width and
twice the height, and `doUpscale` applies it to each current variant
independently. -/
theorem c5_upscale_doubles :
    (∀ c : Canvas, (upscale2x c).width = 2 * c.width ∧ (upscale2x c).height = 2 * c.height) ∧
    ∀ s : AppState, (doUpscale s UpOutcome.ok).variants = s.variants.map upscale2x := by
  refine ⟨fun c => ⟨?_, ?_⟩, fun s => rfl⟩ <;> simp [upscale2x, mul_comm]

/-- C2: every canvas produced by `generateVariants` has the dimensions
of the fixed table entry for the chosen aspect ratio, scaled by the
quality multiplier 1 / 1.3 / 1.6 (and rounded to whole canvas pixels by
`Math.round`, as canvas dimensions are integers). -/
theorem c2_variant_dimensions (measureW : String → String → ℚ) (base : Img)
    (opts : GenOptions) (c : Canvas)
    (hc : c ∈ generateVariants measureW base opts) :
    (c.width, c.height) =
      (let wh : ℚ × ℚ :=
        match opts.ratio with
        | .r1x1 => (1024, 1024)
        | .r4x5 => (1024, 1280)
        | .r16x9 => (1280, 720)
        | .r9x16 => (1080, 1920)
      let m : ℚ :=
        match opts.quality with
        | .standard => 1
        | .high => 1.3
        | .ultra => 1.6
      (jsRound (wh.1 * m), jsRound (wh.2 * m))) := by
  unfold generateVariants at hc
  rw [List.mem_map] at hc
  obtain ⟨i, _hi, rfl⟩ := hc
  rcases opts with ⟨m, st, cp, r, q, w⟩
  cases r <;> cases q <;>
    simp [variantCanvas, ratios, qualityScale]

/-- Witness for C2: the first canvas of a concrete run. -/
theorem c2_witness :
    cEx ∈ generateVariants measureEx imgEx optsEx ∧
    (cEx.width, cEx.height) = (jsRound ((1024 : ℚ) * 1), jsRound ((1024 : ℚ) * 1)) :=
  ⟨cEx_mem, c2_variant_dimensions measureEx imgEx optsEx cEx cEx_mem⟩

/-- C3: `generateVariants` produces exactly four variants, the i-th
drawn with the i-th of the four preset filters (clean, moody, pop,
matte — each built from the base "contrast(1.05) saturate(1.05)"
string), and in poster mode the preset list is reversed. -/
theorem c3_preset_filters (measureW : String → String → ℚ) (base : Img)
    (opts : GenOptions) :
    ((generateVariants measureW base opts).map canvasFilters =
      (let b := "contrast(1.05) saturate(1.05)"
       let fs := [b ++ " brightness(1.03)", b ++ " brightness(0.92) contrast(1.15)",
                  b ++ " brightness(1.1) saturate(1.25)", b ++ " brightness(1.0) contrast(0.95)"]
       (if opts.mode = Mode.poster then fs.reverse else fs).map fun f => [f])) ∧
    (buildPresetFilters opts).map Preset.name =
      (if opts.mode = Mode.poster then ["matte", "pop", "moody", "clean"]
       else ["clean", "moody", "pop", "matte"]) := by
  constructor
  · unfold generateVariants
    have h4 : List.range 4 = [0, 1, 2, 3] := rfl
    rw [h4]
    cases hm : opts.mode <;>
      simp [canvasFilters_variantCanvas, buildPresetFilters, hm]
  · cases hm : opts.mode <;> simp [buildPresetFilters, hm]

/-- C4: a canvas produced by `generateVariants` carries the watermark
text overlay ("ProductPro", drawn at the bottom-right corner: right
edge inset by the measured text width plus the padding, baseline one
padding above the bottom) exactly when the watermark option is true. -/
theorem c4_watermark_iff (measureW : String → String → ℚ) (base : Img)
    (opts : GenOptions) (c : Canvas)
    (hc : c ∈ generateVariants measureW base opts) :
    (watermarkOps c ≠ [] ↔ opts.watermark = true) ∧
    (opts.watermark = true →
      watermarkOps c =
        [ DrawOp.fillText "ProductPro"
            ((c.width : ℚ)
              - measureW (toString (jsRound ((c.width : ℚ) * 0.018)) ++ "px sans-serif") "ProductPro"
              - ((jsRound (((min c.width c.height : ℤ) : ℚ) * 0.08) : ℤ) : ℚ))
            ((c.height : ℚ) - ((jsRound (((min c.width c.height : ℤ) : ℚ) * 0.08) : ℤ) : ℚ))
            (toString (jsRound ((c.width : ℚ) * 0.018)) ++ "px sans-serif")
            "rgba(255,255,255,0.7)" ]) := by
  unfold generateVariants at hc
  rw [List.mem_map] at hc
  obtain ⟨i, _hi, rfl⟩ := hc
  cases hw : opts.watermark <;> cases hm : opts.mode <;>
    simp [variantCanvas, watermarkOps, isWatermarkOp, hw, hm, hexw07, beq_fff,
          List.filter_append, List.filter_cons, List.filter_map, Function.comp,
          filter_const_false]

/-- Witness for C4: the first canvas of a concrete run (watermark on). -/
theorem c4_witness :
    cEx ∈ generateVariants measureEx imgEx optsEx ∧
    ((watermarkOps cEx ≠ [] ↔ optsEx.watermark = true) ∧
     (optsEx.watermark = true →
       watermarkOps cEx =
        [ DrawOp.fillText "ProductPro"
            ((cEx.width : ℚ)
              - measureEx (toString (jsRound ((cEx.width : ℚ) * 0.018)) ++ "px sans-serif") "ProductPro"
              - ((jsRound (((min cEx.width cEx.height : ℤ) : ℚ) * 0.08) : ℤ) : ℚ))
            ((cEx.height : ℚ) - ((jsRound (((min cEx.width cEx.height : ℤ) : ℚ) * 0.08) : ℤ) : ℚ))
            (toString (jsRound ((cEx.width : ℚ) * 0.018)) ++ "px sans-serif")
            "rgba(255,255,255,0.7)" ])) :=
  ⟨cEx_mem, c4_watermark_iff measureEx imgEx optsEx cEx cEx_mem⟩

/-- C8 (amended): `onUpload` accepts a file (storing it as the current
image and clearing the error) exactly when its MIME type starts with
"image/" AND the file read resolves; when the MIME type does not start
with "image/" it sets the user-visible message and leaves the image
unchanged; when the read rejects the image is likewise unchanged and no
message is set (the rejection escapes the handler, which had already
cleared the error). -/
theorem c8_upload_mime (s : AppState) (f : JsFile) (out : ReadOutcome) :
    (jsStartsWith f.type "image/" = true → out = ReadOutcome.ok →
      (onUpload s f out).img = some f.content ∧ (onUpload s f out).error = none) ∧
    (jsStartsWith f.type "image/" = false →
      (onUpload s f out).img = s.img ∧
      (onUpload s f out).error = some "Unggah file gambar (PNG/JPG)") ∧
    (jsStartsWith f.type "image/" = true → out = ReadOutcome.readFail →
      (onUpload s f out).img = s.img ∧ (onUpload s f out).error = none) := by
  unfold onUpload
  refine ⟨?_, ?_, ?_⟩
  · intro h hout; subst hout; simp [h]
  · intro h; simp [h]
  · intro h hout; subst hout; simp [h]

/-- C8 counterexample: a file of MIME type "image/png" whose read
rejects is not set as the current image, so acceptance is not
equivalent to the MIME check alone. -/
theorem c8_counterexample :
    jsStartsWith fileEx.type "image/" = true ∧
    (onUpload stateEx30 fileEx ReadOutcome.readFail).img = stateEx30.img ∧
    ¬ ((onUpload stateEx30 fileEx ReadOutcome.readFail).img = some fileEx.content) := by
  refine ⟨by decide, rfl, by decide⟩

/-- Witness for C8 at a concrete image/png upload with a resolving read. -/
theorem c8_witness :
    jsStartsWith fileEx.type "image/" = true ∧
    ((onUpload stateEx30 fileEx ReadOutcome.ok).img = some fileEx.content ∧
     (onUpload stateEx30 fileEx ReadOutcome.ok).error = none) :=
  ⟨by decide, (c8_upload_mime stateEx30 fileEx ReadOutcome.ok).1 (by decide) rfl⟩

/-- C1 (amended): when the remaining quota is ≤ 0, `runGenerate` is
blocked in every session state: it leaves the variants, the copies, and
the usage counter (React mirror and store) unchanged, and it raises
exactly one user-visible error — the quota message whenever an image
has been uploaded, the upload-required message otherwise. -/
theorem c1_quota_blocked (measureW : String → String → ℚ) (s : AppState)
    (out : GenOutcome) (h : remaining s ≤ 0) :
    (runGenerate measureW s out).variants = s.variants ∧
    (runGenerate measureW s out).copies = s.copies ∧
    (runGenerate measureW s out).opsUsed = s.opsUsed ∧
    (runGenerate measureW s out).store = s.store ∧
    (runGenerate measureW s out).error =
      some (if s.img = none then "Harap unggah foto produk dulu."
            else "Batas 30 operasi/hari tercapai.") := by
  unfold runGenerate
  cases himg : s.img with
  | none => simp [himg]
  | some base => simp [himg, h]

/-- C1 counterexample: in the session state with no upload and an
exhausted counter, generation is blocked but the user-visible error is
the upload-required message, not the quota message. -/
theorem c1_counterexample :
    remaining stateEx30 ≤ 0 ∧
    stateEx30.img = none ∧
    (runGenerate measureEx stateEx30 GenOutcome.ok).error
      = some "Harap unggah foto produk dulu." ∧
    ¬ ((runGenerate measureEx stateEx30 GenOutcome.ok).error
      = some "Batas 30 operasi/hari tercapai.") := by
  refine ⟨by decide, rfl, by decide, by decide⟩

/-- Witness for C1 at a concrete state with an upload and an exhausted
counter. -/
theorem c1_witness :
    remaining stateExImg ≤ 0 ∧
    ((runGenerate measureEx stateExImg GenOutcome.ok).variants = stateExImg.variants ∧
     (runGenerate measureEx stateExImg GenOutcome.ok).copies = stateExImg.copies ∧
     (runGenerate measureEx stateExImg GenOutcome.ok).opsUsed = stateExImg.opsUsed ∧
     (runGenerate measureEx stateExImg GenOutcome.ok).store = stateExImg.store ∧
     (runGenerate measureEx stateExImg GenOutcome.ok).error =
       some (if stateExImg.img = none then "Harap unggah foto produk dulu."
             else "Batas 30 operasi/hari tercapai.")) :=
  ⟨by decide, c1_quota_blocked measureEx stateExImg GenOutcome.ok (by decide)⟩

/-- C6: every failure of an action is terminal for that action — the
handler performs a single attempt, surfaces an error message, and
leaves the prior state (uploaded image, variants, copies, usage
counter) intact.  For `exportAll` this holds for every outcome: a ZIP
failure falls back to individual downloads and no outcome touches the
persisted state. -/
theorem c6_failures_preserve_state (measureW : String → String → ℚ) (s : AppState) :
    (∀ out : GenOutcome, GenFails s out →
        persisted (runGenerate measureW s out) = persisted s ∧
        (runGenerate measureW s out).error ≠ none) ∧
    (persisted (doUpscale s UpOutcome.decodeFail) = persisted s ∧
      (doUpscale s UpOutcome.decodeFail).error ≠ none) ∧
    (∀ out : ExportOutcome, persisted (exportAll s out) = persisted s) := by
  refine ⟨?_, ⟨rfl, by simp [doUpscale]⟩, ?_⟩
  · intro out hfail
    unfold runGenerate
    cases himg : s.img with
    | none => refine ⟨?_, ?_⟩ <;> simp [persisted, himg]
    | some base =>
      have hfail2 : remaining s ≤ 0 ∨ out = GenOutcome.decodeFail := by
        rcases hfail with h | h | h
        · rw [himg] at h; cases h
        · exact Or.inl h
        · exact Or.inr h
      by_cases hrem : remaining s ≤ 0
      · refine ⟨?_, ?_⟩ <;> simp [persisted, himg, hrem]
      · have hout : out = GenOutcome.decodeFail := hfail2.resolve_left hrem
        subst hout
        refine ⟨?_, ?_⟩ <;> simp [persisted, himg, hrem]
  · intro out; cases out <;> rfl

/-- Witness for C6 at a concrete failing generation (no upload). -/
theorem c6_witness :
    GenFails stateEx30 GenOutcome.ok ∧
    (persisted (runGenerate measureEx stateEx30 GenOutcome.ok) = persisted stateEx30 ∧
     (runGenerate measureEx stateEx30 GenOutcome.ok).error ≠ none) :=
  ⟨Or.inl rfl, (c6_failures_preserve_state measureEx stateEx30).1 GenOutcome.ok (Or.inl rfl)⟩

lemma jsNumber_toString_int (v : ℤ) (h0 : 0 ≤ v) (h31 : v ≤ 31) :
    toString v ≠ "" ∧ jsNumber (toString v) = v := by
  interval_cases v <;> exact ⟨by decide, by decide⟩

lemma getOpsUsed_setItem (store : Store) (d : Date) (v : ℤ)
    (h0 : 0 ≤ v) (h31 : v ≤ 31) :
    getOpsUsed (setItem store (keyForToday d) (toString v)) d = v := by
  obtain ⟨hne, hval⟩ := jsNumber_toString_int v h0 h31
  unfold getOpsUsed setItem
  simp [hne, hval]

lemma counterInv_init (opts : GenOptions) (d : Date) :
    CounterInv (initState opts d) :=
  ⟨le_refl 0, by norm_num [initState], rfl⟩

lemma counterInv_step (measureW : String → String → ℚ) {s s' : AppState}
    (hst : Step measureW s s') (hinv : CounterInv s) : CounterInv s' := by
  obtain ⟨h0, h30, hsync⟩ := hinv
  cases hst with
  | upload f out =>
    unfold onUpload
    cases out <;> split <;> exact ⟨h0, h30, hsync⟩
  | removeImg => exact ⟨h0, h30, hsync⟩
  | setOptions o => exact ⟨h0, h30, hsync⟩
  | upscale out => cases out <;> exact ⟨h0, h30, hsync⟩
  | doExport out => cases out <;> exact ⟨h0, h30, hsync⟩
  | clear => exact ⟨h0, h30, hsync⟩
  | generate out =>
    unfold runGenerate
    cases himg : s.img with
    | none => exact ⟨h0, h30, hsync⟩
    | some base =>
      dsimp only
      by_cases hrem : remaining s ≤ 0
      · rw [if_pos hrem]; exact ⟨h0, h30, hsync⟩
      · rw [if_neg hrem]
        cases out with
        | decodeFail => exact ⟨h0, h30, hsync⟩
        | ok =>
          have hlt : s.opsUsed < 30 := by unfold remaining at hrem; omega
          refine ⟨?_, ?_, ?_⟩
          · show (0:ℤ) ≤ (incOpsUsed s.store s.today 1).2
            simp only [incOpsUsed, hsync]
            omega
          · show (incOpsUsed s.store s.today 1).2 ≤ 30
            simp only [incOpsUsed, hsync]
            omega
          · show getOpsUsed (incOpsUsed s.store s.today 1).1 s.today
              = (incOpsUsed s.store s.today 1).2
            simp only [incOpsUsed, hsync]
            exact getOpsUsed_setItem s.store s.today (s.opsUsed + 1) (by omega) (by omega)

lemma reachable_counterInv (measureW : String → String → ℚ) (opts0 : GenOptions)
    (d : Date) (s : AppState)
    (h : Reachable measureW (initState opts0 d) s) : CounterInv s := by
  induction h with
  | refl => exact counterInv_init opts0 d
  | tail _hsteps hstep ih => exact counterInv_step measureW hstep ih

/-- C7: in every session state reachable from a fresh day (counter 0),
the counter satisfies 0 ≤ counter ≤ 30; moreover `runGenerate`
increments it by exactly 1 precisely on success (which requires the
counter to be strictly below 30) and leaves it unchanged on failure. -/
theorem c7_counter_invariant (measureW : String → String → ℚ)
    (opts0 : GenOptions) (d : Date) (s : AppState)
    (h : Reachable measureW (initState opts0 d) s) :
    (0 ≤ s.opsUsed ∧ s.opsUsed ≤ 30) ∧
    ∀ out : GenOutcome,
      ((runGenerate measureW s out).error = none →
        s.opsUsed < 30 ∧ (runGenerate measureW s out).opsUsed = s.opsUsed + 1) ∧
      ((runGenerate measureW s out).error ≠ none →
        (runGenerate measureW s out).opsUsed = s.opsUsed) := by
  obtain ⟨h0, h30, hsync⟩ := reachable_counterInv measureW opts0 d s h
  refine ⟨⟨h0, h30⟩, ?_⟩
  intro out
  unfold runGenerate
  cases himg : s.img with
  | none =>
    constructor
    · intro herr; simp at herr
    · intro _; rfl
  | some base =>
    dsimp only
    by_cases hrem : remaining s ≤ 0
    · rw [if_pos hrem]
      constructor
      · intro herr; simp at herr
      · intro _; rfl
    · rw [if_neg hrem]
      cases out with
      | decodeFail =>
        constructor
        · intro herr; simp at herr
        · intro _; rfl
      | ok =>
        constructor
        · intro _
          refine ⟨by unfold remaining at hrem; omega, ?_⟩
          show (incOpsUsed s.store s.today 1).2 = s.opsUsed + 1
          simp only [incOpsUsed, hsync]
        · intro herr; exact absurd rfl herr

/-- Witness for C7 at the initial state itself. -/
theorem c7_witness :
    Reachable measureEx (initState optsEx dateEx) (initState optsEx dateEx) ∧
    ((0 ≤ (initState optsEx dateEx).opsUsed ∧ (initState optsEx dateEx).opsUsed ≤ 30) ∧
     ∀ out : GenOutcome,
       ((runGenerate measureEx (initState optsEx dateEx) out).error = none →
         (initState optsEx dateEx).opsUsed < 30 ∧
         (runGenerate measureEx (initState optsEx dateEx) out).opsUsed
           = (initState optsEx dateEx).opsUsed + 1) ∧
       ((runGenerate measureEx (initState optsEx dateEx) out).error ≠ none →
         (runGenerate measureEx (initState optsEx dateEx) out).opsUsed
           = (initState optsEx dateEx).opsUsed)) :=
  ⟨Relation.ReflTransGen.refl,
   c7_counter_invariant measureEx optsEx dateEx _ Relation.ReflTransGen.refl⟩

lemma toDigitsCore_acc (b : ℕ) : ∀ (f n : ℕ) (acc : List Char),
    Nat.toDigitsCore b f n acc = Nat.toDigitsCore b f n [] ++ acc := by
  intro f
  induction f with
  | zero => intro n acc; simp [Nat.toDigitsCore]
  | succ f ih =>
    intro n acc
    simp only [Nat.toDigitsCore]
    by_cases h : n / b = 0
    · simp [h]
    · simp only [h, if_false]
      rw [ih (n / b) (Nat.digitChar (n % b) :: acc), ih (n / b) [Nat.digitChar (n % b)]]
      simp

lemma toDigitsCore_eq_digits : ∀ (f n : ℕ), n < f → n ≠ 0 →
    Nat.toDigitsCore 10 f n [] = ((Nat.digits 10 n).map Nat.digitChar).reverse := by
  intro f
  induction f with
  | zero => intro n hf _; omega
  | succ f ih =>
    intro n hf hn
    simp only [Nat.toDigitsCore]
    by_cases h : n / 10 = 0
    · have hlt : n < 10 := (Nat.div_eq_zero_iff (by norm_num)).mp h
      rw [Nat.digits_def' (b := 10) (by norm_num) (Nat.pos_of_ne_zero hn)]
      simp [h, Nat.mod_eq_of_lt hlt]
    · have hn10 : n / 10 < f := by
        have : n / 10 < n := Nat.div_lt_self (Nat.pos_of_ne_zero hn) (by norm_num)
        omega
      rw [if_neg h, toDigitsCore_acc, ih (n / 10) hn10 h,
        Nat.digits_def' (b := 10) (by norm_num) (Nat.pos_of_ne_zero hn)]
      simp

lemma repr_eq_digits (n : ℕ) (hn : n ≠ 0) :
    (Nat.repr n).data = ((Nat.digits 10 n).map Nat.digitChar).reverse := by
  show (List.asString (Nat.toDigitsCore 10 (n + 1) n [])).data = _
  rw [toDigitsCore_eq_digits (n + 1) n (by omega) hn]
  rfl

lemma digitChar_isDigit (d : ℕ) (h : d < 10) : (Nat.digitChar d).isDigit = true := by
  interval_cases d <;> decide

lemma list_four_of_length {α : Type} (l : List α) (hl : l.length = 4) :
    ∃ a b c d, l = [a, b, c, d] := by
  rcases l with _ | ⟨a, l⟩; · simp at hl
  rcases l with _ | ⟨b, l⟩; · simp at hl
  rcases l with _ | ⟨c, l⟩; · simp at hl
  rcases l with _ | ⟨d, l⟩; · simp at hl
  rcases l with _ | ⟨e, l⟩
  · exact ⟨a, b, c, d, rfl⟩
  · simp at hl

lemma repr_year (y : ℕ) (h1 : 1000 ≤ y) (h2 : y ≤ 9999) :
    ∃ c1 c2 c3 c4 : Char, (Nat.repr y).data = [c1, c2, c3, c4] ∧
      c1.isDigit ∧ c2.isDigit ∧ c3.isDigit ∧ c4.isDigit := by
  have hy0 : y ≠ 0 := by omega
  have hlog : Nat.log 10 y = 3 :=
    Nat.log_eq_of_pow_le_of_lt_pow (by norm_num; omega) (by norm_num; omega)
  have hlen : (((Nat.digits 10 y).map Nat.digitChar).reverse).length = 4 := by
    simp [Nat.digits_len 10 y (by norm_num) hy0, hlog]
  have hdig : ∀ ch ∈ ((Nat.digits 10 y).map Nat.digitChar).reverse, ch.isDigit = true := by
    intro ch hch
    rw [List.mem_reverse] at hch
    obtain ⟨dd, hd, rfl⟩ := List.mem_map.mp hch
    exact digitChar_isDigit dd (Nat.digits_lt_base (by norm_num) hd)
  obtain ⟨c1, c2, c3, c4, hces⟩ := list_four_of_length _ hlen
  refine ⟨c1, c2, c3, c4, by rw [repr_eq_digits y hy0, hces], ?_, ?_, ?_, ?_⟩ <;>
    [exact hdig c1 (by rw [hces]; simp); exact hdig c2 (by rw [hces]; simp);
     exact hdig c3 (by rw [hces]; simp); exact hdig c4 (by rw [hces]; simp)]

lemma digitString2_spec (s : String) (h : digitString2 s = true) :
    ∃ a b : Char, s.data = [a, b] ∧ a.isDigit ∧ b.isDigit := by
  unfold digitString2 at h
  rcases hs : s.data with _ | ⟨a, _ | ⟨b, _ | ⟨c, t⟩⟩⟩ <;> rw [hs] at h <;> simp at h
  exact ⟨a, b, rfl, h.1, h.2⟩

lemma month_digits (m : ℕ) (h1 : 1 ≤ m) (h2 : m ≤ 12) :
    digitString2 (padStart2 (toString m)) = true := by
  interval_cases m <;> decide

lemma day_digits (d : ℕ) (h1 : 1 ≤ d) (h2 : d ≤ 31) :
    digitString2 (padStart2 (toString d)) = true := by
  interval_cases d <;> decide

/-- C9 (amended): for every date whose year lies in 1000..9999 (the
code does not zero-pad the year, so only then is it four digits), the
counter key has the form `pp_ops_YYYY-MM-DD` with zero-padded month and
day; an absent key reads back as counter 0, and the value written by
`incOpsUsed` is the decimal rendering of the integer counter. -/
theorem c9_key_format (d : Date) (hy1 : 1000 ≤ d.year) (hy2 : d.year ≤ 9999)
    (hmo : d.month ≤ 11) (hd1 : 1 ≤ d.day) (hd2 : d.day ≤ 31)
    (store : Store) (n : ℤ) :
    keyFormatOK (keyForToday d) = true ∧
    (store (keyForToday d) = none → getOpsUsed store d = 0) ∧
    (incOpsUsed store d n).1 (keyForToday d)
      = some (toString (getOpsUsed store d + n)) := by
  refine ⟨?_, ?_, ?_⟩
  · obtain ⟨c1, c2, c3, c4, hy, hc1, hc2, hc3, hc4⟩ := repr_year d.year hy1 hy2
    obtain ⟨m1, m2, hmm, hm1, hm2⟩ :=
      digitString2_spec _ (month_digits (d.month + 1) (by omega) (by omega))
    obtain ⟨e1, e2, hdd, he1, he2⟩ := digitString2_spec _ (day_digits d.day hd1 hd2)
    unfold keyFormatOK keyForToday
    have hdata : ("pp_ops_" ++ toString d.year ++ "-" ++ padStart2 (toString (d.month + 1))
        ++ "-" ++ padStart2 (toString d.day)).data
        = 'p' :: 'p' :: '_' :: 'o' :: 'p' :: 's' :: '_' ::
          c1 :: c2 :: c3 :: c4 :: '-' :: m1 :: m2 :: '-' :: e1 :: e2 :: [] := by
      have h7 : ("pp_ops_" : String).data = ['p', 'p', '_', 'o', 'p', 's', '_'] := rfl
      have hdash : ("-" : String).data = ['-'] := rfl
      simp only [String.data_append, h7, hdash]
      rw [show (toString d.year).data = (Nat.repr d.year).data from rfl, hy, hmm, hdd]
      rfl
    rw [hdata]
    simp [hc1, hc2, hc3, hc4, hm1, hm2, he1, he2]
  · intro habs
    unfold getOpsUsed
    rw [habs]
    rfl
  · unfold incOpsUsed setItem
    simp

/-- C9 counterexample: for the date with year 999 (January 1), the key
is "pp_ops_999-01-01" — the year is rendered without zero-padding, so
the key does not have the claimed four-digit-year form. -/
theorem c9_counterexample :
    keyForToday ⟨999, 0, 1⟩ = "pp_ops_999-01-01" ∧
    keyFormatOK "pp_ops_999-01-01" = false := by
  exact ⟨by decide, by decide⟩

/-- Witness for C9 at the concrete date 2026-10-11 and empty store. -/
theorem c9_witness :
    (1000 ≤ dateEx.year ∧ dateEx.year ≤ 9999 ∧ dateEx.month ≤ 11 ∧
      1 ≤ dateEx.day ∧ dateEx.day ≤ 31) ∧
    (keyFormatOK (keyForToday dateEx) = true ∧
     ((fun _ => none : Store) (keyForToday dateEx) = none →
       getOpsUsed (fun _ => none) dateEx = 0) ∧
     (incOpsUsed (fun _ => none) dateEx 1).1 (keyForToday dateEx)
       = some (toString (getOpsUsed (fun _ => none) dateEx + 1))) :=
  ⟨⟨by decide, by decide, by decide, by decide, by decide⟩,
   c9_key_format dateEx (by decide) (by decide) (by decide) (by decide) (by decide)
     (fun _ => none) 1⟩

end ProductPro
